import Mathlib

/-!
# Verification of the LLM chat worker (`src/index.ts` and its two variants)

Shallow embedding of the Cloudflare worker in this repository.  The repository
contains three versions of the same worker file:

* `src/src/index.ts`        — embedded as `handleChatRequest` (the primary handler);
* `src/unnamed/part_000`    — embedded as `handleChatRequestV0`;
* `src/unnamed/part_001`    — embedded as `handleChatRequestV1`.

All three share the same router (`fetch`), JSON-body handling and message
normalization; they differ in how the AI result's shape is detected and in
whether the 500 error body carries a `details` field.

Modelling conventions:

* A parsed JSON value is a `JsValue`.  `JSON.parse` never produces `undefined`,
  so `undefined` appears only as the absence of an object field, modelled by
  `Option JsValue` (`none` = `undefined`).
* JavaScript property access on `null` throws a `TypeError`; on any other
  non-object value it yields `undefined`.  This is `getProp` below.
* Thrown JavaScript errors are modelled by their message string, via
  `Except String`.  (All errors on the paths modelled here are `Error` /
  `SyntaxError` objects, so `error instanceof Error ? error.message :
  String(error)` is the message itself.)
* The AI backend's polymorphic result is modelled as the tagged union
  `AIShape` with the four shapes of the spec plus an unknown shape; the
  duck-typed checks of the source (`"body" in aiResult`, `instanceof
  Response`, `instanceof ReadableStream`, `"response" in aiResult`) become the
  observable functions `hasBodyField`, `bodyField`, `isResponseObj`,
  `isReadableStream`, `responseField` on that union.
* A streaming body is its sequence of chunks, `ChunkStream := List String`.
* An HTTP response is `HttpResponse`; header lookup is case-insensitive at
  runtime, so the single `contentType` field stands for both spellings
  (`Content-Type` / `content-type`) used in the source.
* `new URL(request.url).pathname` is modelled by `stripQueryFragment` applied
  to the path-query-fragment portion of the request URL (scheme and host are
  never consulted by the router).
-/

/-- A parsed JSON value (output of a successful `JSON.parse`). -/
inductive JsValue where
  | null
  | bool (b : Bool)
  | num (n : Int)
  | str (s : String)
  | arr (elems : List JsValue)
  | obj (fields : List (String × JsValue))

/-- First-match field lookup in a parsed object (JSON.parse deduplicates keys,
so the field lists we consider have unique keys). -/
def lookupField : List (String × JsValue) → String → Option JsValue
  | [], _ => none
  | (k, v) :: rest, key => if k = key then some v else lookupField rest key

/-- JavaScript property access `v[key]`: throws a `TypeError` on `null`,
yields the field (or `undefined` = `none`) on objects, and `undefined` on all
other values. -/
def getProp : JsValue → String → Except String (Option JsValue)
  | .null, k => .error ("TypeError: Cannot read properties of null (reading '" ++ k ++ "')")
  | .obj fs, k => .ok (lookupField fs k)
  | _, _ => .ok none

/-- Semantics of `x === "system"` for a property-access result:
true exactly when the value is the string `"system"`. -/
def isSystemStr : Option JsValue → Bool
  | some (.str s) => s = "system"
  | _ => false

/-- The `MODEL_ID` constant of the source. -/
def MODEL_ID : String := "@cf/meta/llama-3.3-70b-instruct-fp8-fast"

/-- The `SYSTEM_PROMPT` constant of the source. -/
def SYSTEM_PROMPT : String :=
  "You are a helpful, friendly assistant. Provide concise and accurate responses."

/-- The default system message `{ role: "system", content: SYSTEM_PROMPT }`
that `messages.unshift` prepends. -/
def defaultSystemMessage : JsValue :=
  .obj [("role", .str "system"), ("content", .str SYSTEM_PROMPT)]

/-- Embedding of `messages.some((msg) => msg.role === "system")`: short-circuiting scan; a
`null` element reached before a match makes the property access throw. -/
def hasSystemRole : List JsValue → Except String Bool
  | [] => .ok false
  | m :: rest =>
    match getProp m "role" with
    | .error e => .error e
    | .ok r => if isSystemStr r then .ok true else hasSystemRole rest

/-- Embedding of `const { messages = [] } = parsed`: destructuring `null` throws; on any
other value the `messages` property is read (yielding `undefined` on
non-objects and on objects without the field), and the default `[]` replaces
`undefined` only. -/
def destructureMessages : JsValue → Except String JsValue
  | .null => .error "TypeError: Cannot destructure property 'messages' of 'null' as it is null."
  | .obj fs => .ok ((lookupField fs "messages").getD (.arr []))
  | _ => .ok (.arr [])

/-- The conversation the handler passes to `env.AI.run` for a successfully
parsed body: extract `messages` (defaulting to `[]`), run
`messages.some((msg) => msg.role === "system")` — which throws a `TypeError`
when `messages` is not an array — and prepend the default system message when
no system-role message was found. -/
def sentConversation (parsed : JsValue) : Except String (List JsValue) :=
  match destructureMessages parsed with
  | .error e => .error e
  | .ok (.arr msgs) =>
    match hasSystemRole msgs with
    | .error e => .error e
    | .ok true => .ok msgs
    | .ok false => .ok (defaultSystemMessage :: msgs)
  | .ok _ => .error "TypeError: messages.some is not a function"

/-- A streaming body, as its sequence of chunks. -/
abbrev ChunkStream := List String

/-- The AI backend's result, abstracted as the tagged union of §9 of the spec:
the four known shapes (a `Response`-like object whose `body` may be `null`, a
raw `ReadableStream`, a structured object with a `body` stream field that may
be absent/null, a structured object with a string `response` field) plus an
unrecognized shape. -/
inductive AIShape where
  | streamableResponse (body : Option ChunkStream)
  | rawStream (s : ChunkStream)
  | bodyWrapper (body : Option ChunkStream)
  | textWrapper (text : String)
  | unknownShape
deriving DecidableEq

/-- Embedding of `"body" in aiResult`: `Response` objects and the body-wrapper object carry
a `body` property; a raw `ReadableStream`, the text wrapper and the unknown
shape do not. -/
def AIShape.hasBodyField : AIShape → Bool
  | .streamableResponse _ => true
  | .bodyWrapper _ => true
  | _ => false

/-- The (truthy) value of `aiResult.body`: `none` when the property is absent
or `null`. -/
def AIShape.bodyField : AIShape → Option ChunkStream
  | .streamableResponse b => b
  | .bodyWrapper b => b
  | _ => none

/-- Embedding of `aiResult instanceof Response`. -/
def AIShape.isResponseObj : AIShape → Bool
  | .streamableResponse _ => true
  | _ => false

/-- Embedding of `aiResult instanceof ReadableStream`. -/
def AIShape.isReadableStream : AIShape → Bool
  | .rawStream _ => true
  | _ => false

/-- Embedding of `"response" in aiResult && typeof aiResult.response === "string"`:
the string value when present. -/
def AIShape.responseField : AIShape → Option String
  | .textWrapper t => some t
  | _ => none

/-- An HTTP response body: a relayed byte stream, a plain text body, or the
JSON error envelope `{"error": ..., "details"?: ...}` (structured form of the
`JSON.stringify` argument in the source's catch blocks). -/
inductive Body where
  | stream (s : ChunkStream)
  | text (t : String)
  | json (error : String) (details : Option String)
deriving DecidableEq

/-- An HTTP response: status, `Content-Type` header (when set explicitly),
body. -/
structure HttpResponse where
  status : Nat
  contentType : Option String
  body : Body
deriving DecidableEq

/-- The 200 streaming success response
`new Response(payload, { headers: { "Content-Type": "text/plain; charset=utf-8" } })`. -/
def ok200 (b : Body) : HttpResponse :=
  ⟨200, some "text/plain; charset=utf-8", b⟩

/-- The catch-block response of `src/src/index.ts`:
`JSON.stringify({ error: "Failed to process request" })`, status 500,
`content-type: application/json`. -/
def err500NoDetails : HttpResponse :=
  ⟨500, some "application/json", .json "Failed to process request" none⟩

/-- The catch-block response of the two variant files:
`JSON.stringify({ error: "Failed to process request", details })`. -/
def err500 (details : String) : HttpResponse :=
  ⟨500, some "application/json", .json "Failed to process request" (some details)⟩

/-- Shape detection of `src/src/index.ts`:
`if (!("body" in aiResult) || !aiResult.body) throw new Error(...)`, then
relay `aiResult.body`. -/
def detectMain (r : AIShape) : Except String Body :=
  match r.bodyField with
  | some b => .ok (.stream b)
  | none => .error "AI returned no body stream"

/-- Shape detection of `src/unnamed/part_000`: `instanceof Response` (whose
missing body throws), then `instanceof ReadableStream`, else throw. -/
def detectV0 (r : AIShape) : Except String Body :=
  if r.isResponseObj then
    match r.bodyField with
    | some b => .ok (.stream b)
    | none => .error "AI Response has no body stream"
  else if r.isReadableStream then
    match r with
    | .rawStream s => .ok (.stream s)
    | _ => .error "Unexpected AI result type"
  else .error "Unexpected AI result type"

/-- Shape detection of `src/unnamed/part_001`: `"body" in aiResult &&
aiResult.body`, then `"response" in aiResult && typeof aiResult.response ===
"string"`, else throw. -/
def detectV1 (r : AIShape) : Except String Body :=
  match r.bodyField with
  | some b => .ok (.stream b)
  | none =>
    match r.responseField with
    | some t => .ok (.text t)
    | none => .error "AI returned an unexpected result format"

/-- The success/throw pipeline shared by the three handler versions, inside
the `try` block: parse result, conversation normalization, backend call,
shape detection, and the 200 `text/plain; charset=utf-8` streaming response.
The backend (`env.AI.run` with `MODEL_ID`, `max_tokens: 1024`, `stream: true`)
is a parameter from the normalized conversation to a result or a failure. -/
def chatPipeline (detect : AIShape → Except String Body)
    (parseResult : Except String JsValue)
    (backend : List JsValue → Except String AIShape) : Except String HttpResponse :=
  match parseResult with
  | .error e => .error e
  | .ok parsed =>
    match sentConversation parsed with
    | .error e => .error e
    | .ok conv =>
      match backend conv with
      | .error e => .error e
      | .ok aiResult =>
        match detect aiResult with
        | .error e => .error e
        | .ok b => .ok (ok200 b)

/-- Function `handleChatRequest` of `src/src/index.ts`: on any failure the catch block
returns 500 `application/json` with body
`JSON.stringify({ error: "Failed to process request" })` — no `details`
field. -/
def handleChatRequest (parseResult : Except String JsValue)
    (backend : List JsValue → Except String AIShape) : HttpResponse :=
  match chatPipeline detectMain parseResult backend with
  | .ok resp => resp
  | .error _ => err500NoDetails

/-- Function `handleChatRequest` of `src/unnamed/part_000`: the catch block adds
`details: error.message`. -/
def handleChatRequestV0 (parseResult : Except String JsValue)
    (backend : List JsValue → Except String AIShape) : HttpResponse :=
  match chatPipeline detectV0 parseResult backend with
  | .ok resp => resp
  | .error e => err500 e

/-- Function `handleChatRequest` of `src/unnamed/part_001`: the catch block adds
`details: error.message`. -/
def handleChatRequestV1 (parseResult : Except String JsValue)
    (backend : List JsValue → Except String AIShape) : HttpResponse :=
  match chatPipeline detectV1 parseResult backend with
  | .ok resp => resp
  | .error e => err500 e

/-- Embedding of `new URL(u).pathname` restricted to what the router consults: the path
part of the path-query-fragment serialization, i.e. everything before the
first `?` or `#`. -/
def stripQueryFragment (s : String) : String :=
  ⟨s.data.takeWhile (fun c => c ≠ '?' && c ≠ '#')⟩

/-- JavaScript's `String.prototype.startsWith`, on the character sequences of
the two strings. -/
def jsStartsWith (s pre : String) : Bool :=
  pre.data.isPrefixOf s.data

/-- The router's decision: delegate to the static-asset collaborator
(`env.ASSETS.fetch(request)`), delegate to the chat handler, or answer
directly with a fixed response. -/
inductive Routed where
  | assets
  | chat
  | respond (r : HttpResponse)
deriving DecidableEq

/-- The `fetch` entry point's routing (identical in all three source files):
root path or path outside `/api/` → static assets; `/api/chat` + POST → chat
handler; `/api/chat` otherwise → 405 `"Method not allowed"`; any other `/api/`
path → 404 `"Not found"`. -/
def routerFetch (method : String) (url : String) : Routed :=
  let p := stripQueryFragment url
  if p = "/" ∨ jsStartsWith p "/api/" = false then .assets
  else if p = "/api/chat" ∧ method = "POST" then .chat
  else if p = "/api/chat" then .respond ⟨405, none, .text "Method not allowed"⟩
  else .respond ⟨404, none, .text "Not found"⟩

/-! Helper lemmas shared by the claim theorems. -/

/-- Pure form of `msg.role === "system"` for a non-`null` message. -/
def roleIsSystem (m : JsValue) : Bool :=
  match m with
  | .obj fs => isSystemStr (lookupField fs "role")
  | _ => false

theorem getProp_role_of_ne_null (m : JsValue) (h : m ≠ .null) :
    getProp m "role" = .ok (match m with | .obj fs => lookupField fs "role" | _ => none) := by
  cases m with
  | null => exact absurd rfl h
  | bool b => rfl
  | num n => rfl
  | str s => rfl
  | arr l => rfl
  | obj fs => rfl

theorem hasSystemRole_eq_any (msgs : List JsValue)
    (hnn : ∀ m ∈ msgs, m ≠ JsValue.null) :
    hasSystemRole msgs = .ok (msgs.any roleIsSystem) := by
  induction msgs with
  | nil => simp [hasSystemRole]
  | cons m rest ih =>
    have hm : m ≠ JsValue.null := hnn m (by simp)
    have hrest := ih (fun x hx => hnn x (by simp [hx]))
    rw [hasSystemRole, getProp_role_of_ne_null m hm]
    cases m with
    | null => exact absurd rfl hm
    | obj fs =>
      by_cases hs : isSystemStr (lookupField fs "role") <;>
        simp [roleIsSystem, hs, hrest]
    | bool b => simp [roleIsSystem, isSystemStr, hrest]
    | num n => simp [roleIsSystem, isSystemStr, hrest]
    | str s => simp [roleIsSystem, isSystemStr, hrest]
    | arr l => simp [roleIsSystem, isSystemStr, hrest]

theorem sentConversation_of_msgs (msgs : List JsValue)
    (hnn : ∀ m ∈ msgs, m ≠ JsValue.null) :
    sentConversation (.obj [("messages", .arr msgs)]) =
      .ok (if msgs.any roleIsSystem then msgs else defaultSystemMessage :: msgs) := by
  have h := hasSystemRole_eq_any msgs hnn
  cases hb : msgs.any roleIsSystem <;>
    simp [sentConversation, destructureMessages, lookupField, h, hb]

theorem chatPipeline_error_eq (d : AIShape → Except String Body) (e : String)
    (bk : List JsValue → Except String AIShape) :
    chatPipeline d (.error e) bk = .error e := rfl

theorem chatPipeline_ok_eq (d : AIShape → Except String Body) (parsed : JsValue)
    (bk : List JsValue → Except String AIShape) :
    chatPipeline d (.ok parsed) bk =
      (match sentConversation parsed with
      | .error e => .error e
      | .ok conv =>
        match bk conv with
        | .error e => .error e
        | .ok ai =>
          match d ai with
          | .error e => .error e
          | .ok b => .ok (ok200 b)) := rfl

theorem chatPipeline_ok_shape (d : AIShape → Except String Body)
    (p : Except String JsValue) (bk : List JsValue → Except String AIShape)
    (r : HttpResponse) (h : chatPipeline d p bk = .ok r) :
    r.status = 200 ∧ r.contentType = some "text/plain; charset=utf-8" := by
  cases p with
  | error e => rw [chatPipeline_error_eq] at h; cases h
  | ok parsed =>
    rw [chatPipeline_ok_eq] at h
    cases hs : sentConversation parsed with
    | error e => simp only [hs] at h; cases h
    | ok conv =>
      simp only [hs] at h
      cases hb : bk conv with
      | error e => simp only [hb] at h; cases h
      | ok ai =>
        simp only [hb] at h
        cases hd : d ai with
        | error e => simp only [hd] at h; cases h
        | ok b =>
          simp only [hd] at h
          cases h
          exact ⟨rfl, rfl⟩

/-! Theorems settling the claims. -/

/-- C1: for a parsed request whose `messages` sequence (of non-`null`
messages) contains no message with role `"system"`, the conversation passed
to the backend is the default system message followed by all original
messages in order; when a system-role message is present at any index, the
conversation is forwarded unmodified. -/
theorem system_message_invariant (msgs : List JsValue)
    (hnn : ∀ m ∈ msgs, m ≠ JsValue.null) :
    ((¬ ∃ m ∈ msgs, roleIsSystem m = true) →
        sentConversation (.obj [("messages", .arr msgs)]) =
          .ok (defaultSystemMessage :: msgs)) ∧
    ((∃ m ∈ msgs, roleIsSystem m = true) →
        sentConversation (.obj [("messages", .arr msgs)]) = .ok msgs) := by
  have h := sentConversation_of_msgs msgs hnn
  constructor <;> intro hex
  · have hany : msgs.any roleIsSystem = false := by
      cases hb : msgs.any roleIsSystem with
      | false => rfl
      | true => exact absurd (List.any_eq_true.mp hb) hex
    rw [h, hany]
    rfl
  · have hany : msgs.any roleIsSystem = true := List.any_eq_true.mpr hex
    rw [h, hany]
    rfl

/-- Witness for C1 at a concrete one-message conversation without a
system-role message. -/
theorem system_message_invariant_witness :
    sentConversation
        (.obj [("messages", .arr [.obj [("role", .str "user"), ("content", .str "hi")]])]) =
      .ok (defaultSystemMessage :: [.obj [("role", .str "user"), ("content", .str "hi")]]) := by
  refine (system_message_invariant [.obj [("role", .str "user"), ("content", .str "hi")]] ?_).1 ?_
  · intro m hm
    rw [List.mem_singleton] at hm
    subst hm
    simp
  · rintro ⟨m, hm, hrole⟩
    rw [List.mem_singleton] at hm
    subst hm
    simp [roleIsSystem, isSystemStr, lookupField] at hrole

/-- C9: the handler validates no individual message: any array of non-`null`
messages — whatever their `role` and `content` values, including roles
outside {system, user, assistant} and non-string contents — is forwarded to
the backend verbatim (with the default system message prepended exactly when
no element's role is `"system"`), and never takes the error path. -/
theorem no_per_message_validation (msgs : List JsValue)
    (hnn : ∀ m ∈ msgs, m ≠ JsValue.null) :
    sentConversation (.obj [("messages", .arr msgs)]) =
      .ok (if msgs.any roleIsSystem then msgs else defaultSystemMessage :: msgs) :=
  sentConversation_of_msgs msgs hnn

/-- Witness for C9: a message with a numeric role and an array content, and a
plain-string message, are forwarded verbatim. -/
theorem no_per_message_validation_witness :
    sentConversation
        (.obj [("messages", .arr [.obj [("role", .num 7), ("content", .arr [])], .str "x"])]) =
      .ok (defaultSystemMessage :: [.obj [("role", .num 7), ("content", .arr [])], .str "x"]) := by
  have h := no_per_message_validation [.obj [("role", .num 7), ("content", .arr [])], .str "x"]
    (by intro m hm
        simp only [List.mem_cons, List.mem_singleton, List.not_mem_nil, or_false] at hm
        rcases hm with rfl | rfl <;> simp)
  simpa [roleIsSystem, isSystemStr, lookupField] using h

/-- C10: the chat handler is deterministic — two runs on the same parse
result and the same backend agree on status, content type and body. -/
theorem handler_deterministic (p : Except String JsValue)
    (bk : List JsValue → Except String AIShape) (r₁ r₂ : HttpResponse)
    (h₁ : r₁ = handleChatRequest p bk) (h₂ : r₂ = handleChatRequest p bk) :
    r₁.status = r₂.status ∧ r₁.contentType = r₂.contentType ∧ r₁.body = r₂.body := by
  subst h₁
  subst h₂
  exact ⟨rfl, rfl, rfl⟩

/-- Witness for C10 at a failing parse and an unknown-shape backend. -/
theorem handler_deterministic_witness :
    err500NoDetails.status = err500NoDetails.status ∧
    err500NoDetails.contentType = err500NoDetails.contentType ∧
    err500NoDetails.body = err500NoDetails.body :=
  handler_deterministic (.error "SyntaxError: Unexpected token")
    (fun _ => .ok .unknownShape) err500NoDetails err500NoDetails rfl rfl

/-- C4: a request body that is not valid JSON yields exactly the 500 JSON
error envelope, never a 200; and the handler is total — every outcome is
either the 200 `text/plain; charset=utf-8` success shape or the fixed 500
JSON error envelope. -/
theorem parse_failure_fallback_total (e : String) (p : Except String JsValue)
    (bk : List JsValue → Except String AIShape) :
    handleChatRequest (.error e) bk = err500NoDetails ∧
    ((handleChatRequest p bk).status = 200 ∧
        (handleChatRequest p bk).contentType = some "text/plain; charset=utf-8" ∨
      handleChatRequest p bk = err500NoDetails) := by
  refine ⟨rfl, ?_⟩
  unfold handleChatRequest
  cases hp : chatPipeline detectMain p bk with
  | error e' => right; rfl
  | ok r => left; exact chatPipeline_ok_shape detectMain p bk r hp

/-- C5 counterexample: on a parse failure with an available message, the
primary handler's 500 body is the bare `{"error": "Failed to process
request"}` — it carries no `details` field with the failure's message. -/
theorem error_details_counterexample :
    handleChatRequest (.error "SyntaxError: Unexpected token x in JSON")
        (fun _ => .ok (.streamableResponse (some ["Hello"]))) =
      ⟨500, some "application/json", .json "Failed to process request" none⟩ ∧
    Body.json "Failed to process request" none ≠
      Body.json "Failed to process request" (some "SyntaxError: Unexpected token x in JSON") := by
  exact ⟨rfl, by decide⟩

/-- C5 amended: whenever a handler version fails — at parsing, conversation
extraction, the backend call, or shape detection, each version independently
of the others — it returns status 500 with `Content-Type: application/json`
and the fixed `error` field; the two variant handlers additionally carry
`details` = the underlying failure's message, while the primary handler
(`src/src/index.ts`) omits `details` entirely. -/
theorem error_envelope (p : Except String JsValue)
    (bk : List JsValue → Except String AIShape) :
    (∀ e, chatPipeline detectMain p bk = .error e →
      handleChatRequest p bk = err500NoDetails) ∧
    (∀ e, chatPipeline detectV0 p bk = .error e →
      handleChatRequestV0 p bk = err500 e) ∧
    (∀ e, chatPipeline detectV1 p bk = .error e →
      handleChatRequestV1 p bk = err500 e) := by
  refine ⟨?_, ?_, ?_⟩ <;> intro e h
  · unfold handleChatRequest
    rw [h]
  · unfold handleChatRequestV0
    rw [h]
  · unfold handleChatRequestV1
    rw [h]

/-- Witness for the amended C5, at handler-specific failures: a raw-stream
backend result makes the primary handler and variant `part_001` fail (while
variant `part_000` succeeds there), and a parse failure makes variant
`part_000` fail. -/
theorem error_envelope_witness :
    handleChatRequest (.ok (.obj [])) (fun _ => .ok (.rawStream ["Hello"])) =
      err500NoDetails ∧
    handleChatRequestV0 (.error "SyntaxError: bad JSON") (fun _ => .ok .unknownShape) =
      err500 "SyntaxError: bad JSON" ∧
    handleChatRequestV1 (.ok (.obj [])) (fun _ => .ok (.rawStream ["Hello"])) =
      err500 "AI returned an unexpected result format" :=
  ⟨(error_envelope (.ok (.obj [])) (fun _ => .ok (.rawStream ["Hello"]))).1
      "AI returned no body stream" rfl,
    (error_envelope (.error "SyntaxError: bad JSON") (fun _ => .ok .unknownShape)).2.1
      "SyntaxError: bad JSON" rfl,
    (error_envelope (.ok (.obj [])) (fun _ => .ok (.rawStream ["Hello"]))).2.2
      "AI returned an unexpected result format" rfl⟩

/-- A backend result the handlers cannot relay: the unknown shape, or a shape
that declares a body but carries none. -/
def unrecognizedResult (r : AIShape) : Prop :=
  r = .unknownShape ∨ r = .streamableResponse none ∨ r = .bodyWrapper none

/-- The `error` field of a JSON error body, when the body is one. -/
def Body.errorTag : Body → Option String
  | .json e _ => some e
  | _ => none

/-- C6: whenever the backend returns the unknown shape or a matched shape
with a missing body, all three handlers answer 500 `application/json` with
the fixed `error` field, exactly as for a backend failure. -/
theorem unknown_shape_fallback (parsed : JsValue) (conv : List JsValue) (r : AIShape)
    (hc : sentConversation parsed = .ok conv) (hr : unrecognizedResult r) :
    handleChatRequest (.ok parsed) (fun _ => .ok r) = err500NoDetails ∧
    (handleChatRequestV0 (.ok parsed) (fun _ => .ok r)).status = 500 ∧
    (handleChatRequestV0 (.ok parsed) (fun _ => .ok r)).contentType = some "application/json" ∧
    Body.errorTag (handleChatRequestV0 (.ok parsed) (fun _ => .ok r)).body =
      some "Failed to process request" ∧
    (handleChatRequestV1 (.ok parsed) (fun _ => .ok r)).status = 500 ∧
    (handleChatRequestV1 (.ok parsed) (fun _ => .ok r)).contentType = some "application/json" ∧
    Body.errorTag (handleChatRequestV1 (.ok parsed) (fun _ => .ok r)).body =
      some "Failed to process request" := by
  rcases hr with rfl | rfl | rfl <;>
    simp [handleChatRequest, handleChatRequestV0, handleChatRequestV1,
      chatPipeline_ok_eq, hc, detectMain, detectV0, detectV1, AIShape.bodyField,
      AIShape.isResponseObj, AIShape.isReadableStream, AIShape.responseField,
      err500NoDetails, err500, Body.errorTag]

/-- Witness for C6 at an empty request body and the unknown shape. -/
theorem unknown_shape_fallback_witness :
    handleChatRequest (.ok (.obj [])) (fun _ => .ok .unknownShape) = err500NoDetails ∧
    (handleChatRequestV0 (.ok (.obj [])) (fun _ => .ok .unknownShape)).status = 500 ∧
    (handleChatRequestV0 (.ok (.obj [])) (fun _ => .ok .unknownShape)).contentType =
      some "application/json" ∧
    Body.errorTag (handleChatRequestV0 (.ok (.obj [])) (fun _ => .ok .unknownShape)).body =
      some "Failed to process request" ∧
    (handleChatRequestV1 (.ok (.obj [])) (fun _ => .ok .unknownShape)).status = 500 ∧
    (handleChatRequestV1 (.ok (.obj [])) (fun _ => .ok .unknownShape)).contentType =
      some "application/json" ∧
    Body.errorTag (handleChatRequestV1 (.ok (.obj [])) (fun _ => .ok .unknownShape)).body =
      some "Failed to process request" :=
  unknown_shape_fallback (.obj []) [defaultSystemMessage] .unknownShape rfl (Or.inl rfl)

/-- C2 counterexample: the primary handler does not relay the raw-stream
shape — a backend result that is a raw byte stream yields status 500, not
200. -/
theorem shape_coverage_counterexample :
    (handleChatRequest (.ok (.obj [("messages", .arr [])]))
        (fun _ => .ok (.rawStream ["Hello"]))).status = 500 := rfl

/-- C2 amended: each handler version relays only a subset of the four shapes
with 200 `text/plain; charset=utf-8` and the shape's payload, and answers 500
on the rest: the primary handler relays the two body-carrying shapes; variant
`part_000` the response-like and raw-stream shapes; variant `part_001` the two
body-carrying shapes and the materialized-text shape.  Every shape is covered
by some version, none by all three. -/
theorem shape_coverage (parsed : JsValue) (conv : List JsValue)
    (s : ChunkStream) (t : String)
    (hc : sentConversation parsed = .ok conv) :
    handleChatRequest (.ok parsed) (fun _ => .ok (.streamableResponse (some s))) =
      ok200 (.stream s) ∧
    handleChatRequest (.ok parsed) (fun _ => .ok (.bodyWrapper (some s))) =
      ok200 (.stream s) ∧
    (handleChatRequest (.ok parsed) (fun _ => .ok (.rawStream s))).status = 500 ∧
    (handleChatRequest (.ok parsed) (fun _ => .ok (.textWrapper t))).status = 500 ∧
    handleChatRequestV0 (.ok parsed) (fun _ => .ok (.streamableResponse (some s))) =
      ok200 (.stream s) ∧
    handleChatRequestV0 (.ok parsed) (fun _ => .ok (.rawStream s)) = ok200 (.stream s) ∧
    (handleChatRequestV0 (.ok parsed) (fun _ => .ok (.bodyWrapper (some s)))).status = 500 ∧
    (handleChatRequestV0 (.ok parsed) (fun _ => .ok (.textWrapper t))).status = 500 ∧
    handleChatRequestV1 (.ok parsed) (fun _ => .ok (.streamableResponse (some s))) =
      ok200 (.stream s) ∧
    handleChatRequestV1 (.ok parsed) (fun _ => .ok (.bodyWrapper (some s))) =
      ok200 (.stream s) ∧
    handleChatRequestV1 (.ok parsed) (fun _ => .ok (.textWrapper t)) = ok200 (.text t) ∧
    (handleChatRequestV1 (.ok parsed) (fun _ => .ok (.rawStream s))).status = 500 := by
  refine ⟨?_, ?_, ?_, ?_, ?_, ?_, ?_, ?_, ?_, ?_, ?_, ?_⟩ <;>
    simp [handleChatRequest, handleChatRequestV0, handleChatRequestV1,
      chatPipeline_ok_eq, hc, detectMain, detectV0, detectV1, AIShape.bodyField,
      AIShape.isResponseObj, AIShape.isReadableStream, AIShape.responseField,
      err500NoDetails, err500]

/-- Witness for the amended C2 at an empty conversation and concrete
payloads. -/
theorem shape_coverage_witness :
    handleChatRequest (.ok (.obj [])) (fun _ => .ok (.streamableResponse (some ["Hello"]))) =
      ok200 (.stream ["Hello"]) ∧
    handleChatRequest (.ok (.obj [])) (fun _ => .ok (.bodyWrapper (some ["Hello"]))) =
      ok200 (.stream ["Hello"]) ∧
    (handleChatRequest (.ok (.obj [])) (fun _ => .ok (.rawStream ["Hello"]))).status = 500 ∧
    (handleChatRequest (.ok (.obj [])) (fun _ => .ok (.textWrapper "hi"))).status = 500 ∧
    handleChatRequestV0 (.ok (.obj [])) (fun _ => .ok (.streamableResponse (some ["Hello"]))) =
      ok200 (.stream ["Hello"]) ∧
    handleChatRequestV0 (.ok (.obj [])) (fun _ => .ok (.rawStream ["Hello"])) =
      ok200 (.stream ["Hello"]) ∧
    (handleChatRequestV0 (.ok (.obj [])) (fun _ => .ok (.bodyWrapper (some ["Hello"])))).status =
      500 ∧
    (handleChatRequestV0 (.ok (.obj [])) (fun _ => .ok (.textWrapper "hi"))).status = 500 ∧
    handleChatRequestV1 (.ok (.obj [])) (fun _ => .ok (.streamableResponse (some ["Hello"]))) =
      ok200 (.stream ["Hello"]) ∧
    handleChatRequestV1 (.ok (.obj [])) (fun _ => .ok (.bodyWrapper (some ["Hello"]))) =
      ok200 (.stream ["Hello"]) ∧
    handleChatRequestV1 (.ok (.obj [])) (fun _ => .ok (.textWrapper "hi")) = ok200 (.text "hi") ∧
    (handleChatRequestV1 (.ok (.obj [])) (fun _ => .ok (.rawStream ["Hello"]))).status = 500 :=
  shape_coverage (.obj []) [defaultSystemMessage] ["Hello"] "hi" rfl

/-- C7 counterexample: a body whose `messages` field is present but not an
array (here the number 5) does not proceed with an empty sequence — the
handler takes the error path and answers 500 even though the backend would
have returned a relayable shape. -/
theorem messages_default_counterexample :
    (handleChatRequest (.ok (.obj [("messages", .num 5)]))
        (fun _ => .ok (.streamableResponse (some ["Hello"])))).status = 500 := rfl

/-- C7 amended: only an absent `messages` field (or a non-`null`, non-object
top level) defaults to the empty sequence, after which the backend receives
exactly the default system message; a `messages` value that is present but
not an array instead takes the error path. -/
theorem messages_default (fs fs' : List (String × JsValue)) (v : JsValue)
    (habs : lookupField fs "messages" = none)
    (hpres : lookupField fs' "messages" = some v)
    (hnarr : ∀ xs, v ≠ .arr xs) :
    sentConversation (.obj fs) = .ok [defaultSystemMessage] ∧
    (∃ e, sentConversation (.obj fs') = .error e) := by
  constructor
  · simp [sentConversation, destructureMessages, habs, hasSystemRole]
  · refine ⟨"TypeError: messages.some is not a function", ?_⟩
    cases v with
    | arr xs => exact absurd rfl (hnarr xs)
    | null => simp [sentConversation, destructureMessages, hpres]
    | bool b => simp [sentConversation, destructureMessages, hpres]
    | num n => simp [sentConversation, destructureMessages, hpres]
    | str s => simp [sentConversation, destructureMessages, hpres]
    | obj fs'' => simp [sentConversation, destructureMessages, hpres]

/-- Witness for the amended C7: absent field vs. numeric field. -/
theorem messages_default_witness :
    sentConversation (.obj []) = .ok [defaultSystemMessage] ∧
    (∃ e, sentConversation (.obj [("messages", .num 5)]) = .error e) :=
  messages_default [] [("messages", .num 5)] (.num 5) rfl rfl
    (fun _ h => JsValue.noConfusion h)

theorem takeWhile_append_all {p : Char → Bool} (l₁ l₂ : List Char)
    (h : ∀ c ∈ l₁, p c = true) :
    (l₁ ++ l₂).takeWhile p = l₁ ++ l₂.takeWhile p := by
  induction l₁ with
  | nil => simp
  | cons c cs ih =>
    simp only [List.cons_append, List.takeWhile_cons, h c (by simp),
      ih (fun x hx => h x (by simp [hx])), if_true]

theorem stripQueryFragment_append (path sfx : String)
    (hp : ∀ c ∈ path.data, (c ≠ '?' && c ≠ '#') = true)
    (hs : sfx.data = [] ∨ ∃ c rest, sfx.data = c :: rest ∧ (c = '?' ∨ c = '#')) :
    stripQueryFragment (path ++ sfx) = stripQueryFragment path := by
  cases path with
  | mk l₁ =>
    cases sfx with
    | mk l₂ =>
      show String.mk ((l₁ ++ l₂).takeWhile _) = String.mk (l₁.takeWhile _)
      rw [takeWhile_append_all l₁ l₂ hp,
        show l₁.takeWhile (fun c => c ≠ '?' && c ≠ '#') = l₁ from by
          have := takeWhile_append_all (p := fun c => c ≠ '?' && c ≠ '#') l₁ [] hp
          simpa using this]
      rcases hs with h2 | ⟨c, rest, h2, hc⟩
      · simp at h2
        simp [h2]
      · simp only at h2
        subst h2
        rcases hc with rfl | rfl <;> simp [List.takeWhile_cons]

/-- C8: routing depends only on the pathname — appending a query string or a
fragment to the path leaves the routing decision unchanged. -/
theorem routing_ignores_query (method path sfx : String)
    (hp : ∀ c ∈ path.data, c ≠ '?' ∧ c ≠ '#')
    (hs : sfx.data = [] ∨ ∃ c rest, sfx.data = c :: rest ∧ (c = '?' ∨ c = '#')) :
    routerFetch method (path ++ sfx) = routerFetch method path := by
  unfold routerFetch
  rw [stripQueryFragment_append path sfx
    (fun c hc => by simp [(hp c hc).1, (hp c hc).2]) hs]

/-- Witness for C8: a POST to `/api/chat?x=1` routes exactly as a POST to
`/api/chat` — to the chat handler. -/
theorem routing_ignores_query_witness :
    routerFetch "POST" ("/api/chat" ++ "?x=1") = routerFetch "POST" "/api/chat" ∧
    routerFetch "POST" "/api/chat" = .chat := by
  constructor
  · exact routing_ignores_query "POST" "/api/chat" "?x=1"
      (by decide) (Or.inr ⟨'?', "x=1".data, rfl, Or.inl rfl⟩)
  · decide

/-- C3: the router's decision is total and follows the four ordered rules:
static assets for the root path or any path outside `/api/`; the chat handler
for POST `/api/chat`; 405 `"Method not allowed"` for `/api/chat` with any
other method; 404 `"Not found"` for every other `/api/` path. -/
theorem routing_totality (method url : String) :
    (routerFetch method url = .assets ↔
      (stripQueryFragment url = "/" ∨
        jsStartsWith (stripQueryFragment url) "/api/" = false)) ∧
    (routerFetch method url = .chat ↔
      (¬ (stripQueryFragment url = "/" ∨
          jsStartsWith (stripQueryFragment url) "/api/" = false) ∧
        stripQueryFragment url = "/api/chat" ∧ method = "POST")) ∧
    (routerFetch method url = .respond ⟨405, none, .text "Method not allowed"⟩ ↔
      (¬ (stripQueryFragment url = "/" ∨
          jsStartsWith (stripQueryFragment url) "/api/" = false) ∧
        stripQueryFragment url = "/api/chat" ∧ method ≠ "POST")) ∧
    (routerFetch method url = .respond ⟨404, none, .text "Not found"⟩ ↔
      (¬ (stripQueryFragment url = "/" ∨
          jsStartsWith (stripQueryFragment url) "/api/" = false) ∧
        stripQueryFragment url ≠ "/api/chat")) ∧
    (routerFetch method url = .assets ∨ routerFetch method url = .chat ∨
      routerFetch method url = .respond ⟨405, none, .text "Method not allowed"⟩ ∨
      routerFetch method url = .respond ⟨404, none, .text "Not found"⟩) := by
  unfold routerFetch
  dsimp only
  split_ifs with h1 h2 h3 <;> simp_all
